import Mathlib

/-!
Shallow embedding of the MailNet repository (Gmail/Outlook email client) in Lean 4,
together with theorems settling the frozen claims about its specification.

The embedding follows the Python source:
  * `src/email_client/outlook_helpers.py` (GraphQueryPlanner, OutlookClient)
  * `src/email_client/gmail_helpers.py`   (GmailClient)
  * `src/api/main.py`                     (load_email_settings, update_email_settings)
  * `src/mcp_server/common/models.py`     (EmailSettings)

Conventions: Python `Optional[str]` is `Option String`, Python truthiness of an
optional string (`if x:`) is `truthy`, raising code lives in `Except String`,
and the network transport is an oracle record supplied as an argument.
-/

namespace MailNet

/-- Python truthiness of an `Optional[str]`: `None` and `""` are falsy. -/
def truthy : Option String → Bool
  | none => false
  | some s => s ≠ ""

/-- Model of Python `str.upper()` (ASCII case mapping, character-wise). -/
def pyUpper (s : String) : String := String.mk (s.data.map Char.toUpper)

/-- Model of Python `str.lower()` (ASCII case mapping, character-wise). -/
def pyLower (s : String) : String := String.mk (s.data.map Char.toLower)

/-- Model of Python `str.strip()` (trim surrounding whitespace). -/
def pyStrip (s : String) : String :=
  String.mk (((s.data.dropWhile Char.isWhitespace).reverse.dropWhile Char.isWhitespace).reverse)

/-- Model of Python `str.capitalize()`: first character upper-cased, the rest lower-cased. -/
def pyCapitalize (s : String) : String :=
  match s.data with
  | [] => ""
  | c :: rest => String.mk (c.toUpper :: rest.map Char.toLower)

/-! ### Date conversion: `GraphQueryPlanner.to_iso8601`

`datetime.strptime(date_str, "%Y/%m/%d")` accepts exactly: four digits, `/`,
a one- or two-digit month in 1..12, `/`, a one- or two-digit day in 1..31,
with the day also valid for the (leap-aware) month, the year in 1..9999, and
nothing left over.  On success `dt.strftime("%Y-%m-%dT00:00:00Z")` renders the
zero-padded date at midnight UTC.  Failure raises `ValueError`, modelled as `none`. -/

/-- All characters of the string are ASCII digits. -/
def allDigits (s : String) : Bool := s.data.all Char.isDigit

/-- Numeric value of a digit string. -/
def digitsVal (s : String) : Nat := s.data.foldl (fun a c => a * 10 + (c.toNat - 48)) 0

/-- Gregorian leap-year rule used by Python `datetime`. -/
def isLeap (y : Nat) : Bool := y % 4 = 0 && (y % 100 ≠ 0 || y % 400 = 0)

/-- Number of days in a month, as validated by the `datetime` constructor. -/
def daysInMonth (y m : Nat) : Nat :=
  if m = 2 then (if isLeap y then 29 else 28)
  else if m = 4 || m = 6 || m = 9 || m = 11 then 30
  else 31

/-- Split a character list at every `/`, the token structure of the
`"%Y/%m/%d"` format regex (structural recursion, so the kernel can evaluate it). -/
def splitSlash : List Char → List String
  | [] => [""]
  | c :: rest =>
    let r := splitSlash rest
    if c = Char.ofNat 47 then "" :: r
    else
      match r with
      | [] => [String.mk [c]]
      | t :: tail => String.mk (c :: t.data) :: tail

/-- Model of `datetime.strptime(s, "%Y/%m/%d")`: returns the (year, month, day)
triple on success and `none` where Python raises `ValueError`. -/
def parseYmd (s : String) : Option (Nat × Nat × Nat) :=
  match splitSlash s.data with
  | [ys, ms, ds] =>
    if ys.length = 4 && allDigits ys
        && (ms.length = 1 || ms.length = 2) && allDigits ms
        && (ds.length = 1 || ds.length = 2) && allDigits ds then
      let y := digitsVal ys
      let m := digitsVal ms
      let d := digitsVal ds
      if 1 ≤ y && 1 ≤ m && m ≤ 12 && 1 ≤ d && d ≤ daysInMonth y m then
        some (y, m, d)
      else none
    else none
  | _ => none

/-- Zero-pad a number to two digits (`strftime` `%m` / `%d`). -/
def pad2 (n : Nat) : String := if n < 10 then "0" ++ toString n else toString n

/-- Zero-pad a number to four digits (`strftime` `%Y`). -/
def pad4 (n : Nat) : String :=
  if n < 10 then "000" ++ toString n
  else if n < 100 then "00" ++ toString n
  else if n < 1000 then "0" ++ toString n
  else toString n

/-- Render a parsed date as the midnight-UTC ISO-8601 string. -/
def isoOfYmd (y m d : Nat) : String :=
  pad4 y ++ "-" ++ pad2 m ++ "-" ++ pad2 d ++ "T00:00:00Z"

/-- Model of `GraphQueryPlanner.to_iso8601` (outlook_helpers.py:45): converts a
Gmail-format `YYYY/MM/DD` date to ISO-8601; `none` models the `ValueError`
raised by `strptime` on malformed input. -/
def to_iso8601 (s : String) : Option String :=
  (parseYmd s).map (fun t => isoOfYmd t.1 t.2.1 t.2.2)

/-! ### URL quoting: `urllib.parse.quote(filter_str, safe="()'/ ")` -/

/-- Uppercase hexadecimal digit. -/
def hexDigit (n : Nat) : Char := if n < 10 then Char.ofNat (48 + n) else Char.ofNat (55 + n)

/-- Percent-encoding of one byte. -/
def pctByte (b : Nat) : String := String.mk ['%', hexDigit (b / 16 % 16), hexDigit (b % 16)]

/-- UTF-8 bytes of a unicode code point. -/
def utf8Bytes (n : Nat) : List Nat :=
  if n < 0x80 then [n]
  else if n < 0x800 then [0xC0 + n / 64, 0x80 + n % 64]
  else if n < 0x10000 then [0xE0 + n / 4096, 0x80 + n / 64 % 64, 0x80 + n % 64]
  else [0xF0 + n / 262144, 0x80 + n / 4096 % 64, 0x80 + n / 64 % 64, 0x80 + n % 64]

/-- Characters `urllib.parse.quote` never encodes. -/
def alwaysSafe (c : Char) : Bool := c.isAlpha || c.isDigit || c = '_' || c = '.' || c = '-' || c = '~'

/-- The `safe` argument used at outlook_helpers.py:97: `"()'/ "`. -/
def quoteSafe (c : Char) : Bool :=
  c = '(' || c = ')' || c = Char.ofNat 39 || c = '/' || c = ' '

/-- Model of `urllib.parse.quote(s, safe="()'/ ")`. -/
def pyQuote (s : String) : String :=
  String.join (s.data.map (fun c =>
    if alwaysSafe c || quoteSafe c then String.mk [c]
    else String.join ((utf8Bytes c.toNat).map pctByte)))

/-! ### The Outlook query planner (`GraphQueryPlanner`, outlook_helpers.py:23-104) -/

/-- The abstract Filter Set handed to `GraphQueryPlanner` (the `filters` dict built
at outlook_helpers.py:252-260). -/
structure Filters where
  sender : Option String := none
  subject : Option String := none
  has_attachment : Bool := false
  after : Option String := none
  before : Option String := none
  unread : Bool := false
  msg_id : Option String := none
deriving DecidableEq, Repr

/-- The fixed seven-entry `GMAIL_TO_OUTLOOK` folder mapping (outlook_helpers.py:24-32). -/
def GMAIL_TO_OUTLOOK : List (String × String) :=
  [("INBOX", "Inbox"), ("SENT", "SentItems"), ("DRAFT", "Drafts"), ("SPAM", "JunkEmail"),
   ("TRASH", "DeletedItems"), ("ARCHIVE", "Archive"), ("IMPORTANT", "Inbox")]

/-- Python dict `.get(key, None)` on the folder mapping. -/
def gmailToOutlook (l : String) : Option String :=
  (GMAIL_TO_OUTLOOK.find? (fun kv => kv.1 = l)).map Prod.snd

/-- State of a `GraphQueryPlanner` after `__init__` (outlook_helpers.py:34-37):
the label is already upper-cased (or `None` when falsy). -/
structure GraphQueryPlanner where
  label : Option String
  filters : Filters
  max_results : Nat
deriving DecidableEq, Repr

/-- The `GraphQueryPlanner(label, filters, max_results)` constructor:
`self.label = label.upper() if label else None`. -/
def GraphQueryPlanner.init (label : Option String) (filters : Filters)
    (max_results : Nat) : GraphQueryPlanner :=
  { label := if truthy label then some (pyUpper (label.getD "")) else none
    filters := filters
    max_results := max_results }

/-- `GraphQueryPlanner.get_folder` (outlook_helpers.py:42):
`self.GMAIL_TO_OUTLOOK.get(self.label, None) if self.label else None`. -/
def GraphQueryPlanner.get_folder (p : GraphQueryPlanner) : Option String :=
  if truthy p.label then gmailToOutlook (p.label.getD "") else none

/-- One conjunct of the OData `$filter` expression assembled by `build_filter`;
`render` gives the exact f-string each branch appends. -/
inductive Clause where
  | isDraftTrue
  | isReadFalse
  | categoryAny (label : String)
  | senderEq (sender : String)
  | subjectContains (subject : String)
  | hasAttachmentsTrue
  | receivedGe (iso : String)
  | receivedLe (iso : String)
deriving DecidableEq, Repr

/-- The literal OData text of a clause, as written in `build_filter`
(outlook_helpers.py:50-79). -/
def Clause.render : Clause → String
  | .isDraftTrue => "isDraft eq true"
  | .isReadFalse => "isRead eq false"
  | .categoryAny l => "categories/any(c:c eq \x27" ++ l ++ "\x27)"
  | .senderEq s => "from/emailAddress/address eq \x27" ++ s ++ "\x27"
  | .subjectContains s => "contains(subject,\x27" ++ s ++ "\x27)"
  | .hasAttachmentsTrue => "hasAttachments eq true"
  | .receivedGe iso => "receivedDateTime ge " ++ iso
  | .receivedLe iso => "receivedDateTime le " ++ iso

/-- Conditional clause for a truthy optional string filter
(`if self.filters.get(...):` followed by one append). -/
def optClause (o : Option String) (f : String → Clause) : List Clause :=
  match o with
  | some s => if s = "" then [] else [f s]
  | none => []

/-- Conditional date clause: a truthy date string is passed through `to_iso8601`,
whose `ValueError` propagates (outlook_helpers.py:70-73). -/
def dateClause (o : Option String) (f : String → Clause) : Except String (List Clause) :=
  match o with
  | some s =>
    if s = "" then pure [] else
      match to_iso8601 s with
      | some iso => pure [f iso]
      | none => throw ("time data \x27" ++ s ++ "\x27 does not match format \x27%Y/%m/%d\x27")
  | none => pure []

/-- The semantic-flag clauses appended first by `build_filter`
(outlook_helpers.py:53-61); the `ARCHIVE` branch is `pass`. -/
def GraphQueryPlanner.semanticClauses (p : GraphQueryPlanner) : List Clause :=
  (if p.label = some "DRAFT" then [Clause.isDraftTrue] else [])
    ++ (if p.label = some "INBOX" && p.filters.unread then [Clause.isReadFalse] else [])
    ++ (if p.label = some "IMPORTANT" then [Clause.categoryAny "Important"] else [])

/-- The unread clause of the explicit-filter section (outlook_helpers.py:74-75):
`if self.filters.get("unread") and self.label != "INBOX"`. -/
def GraphQueryPlanner.lateUnreadClauses (p : GraphQueryPlanner) : List Clause :=
  if p.filters.unread && p.label ≠ some "INBOX" then [Clause.isReadFalse] else []

/-- The custom-category fallback (outlook_helpers.py:77-79):
`if self.label and self.label not in self.GMAIL_TO_OUTLOOK`. -/
def GraphQueryPlanner.fallbackClauses (p : GraphQueryPlanner) : List Clause :=
  if truthy p.label then
    match gmailToOutlook (p.label.getD "") with
    | some _ => []
    | none => [Clause.categoryAny (p.label.getD "")]
  else []

/-- The list `f` of conjuncts assembled by `build_filter` (outlook_helpers.py:50-79),
in source order; a malformed date raises through. -/
def GraphQueryPlanner.build_clauses (p : GraphQueryPlanner) : Except String (List Clause) := do
  let ge ← dateClause p.filters.after Clause.receivedGe
  let le ← dateClause p.filters.before Clause.receivedLe
  pure (p.semanticClauses
    ++ optClause p.filters.sender Clause.senderEq
    ++ optClause p.filters.subject Clause.subjectContains
    ++ (if p.filters.has_attachment then [Clause.hasAttachmentsTrue] else [])
    ++ ge ++ le
    ++ p.lateUnreadClauses
    ++ p.fallbackClauses)

/-- `GraphQueryPlanner.build_filter` (outlook_helpers.py:50-81):
`" and ".join(f) if f else None`. -/
def GraphQueryPlanner.build_filter (p : GraphQueryPlanner) : Except String (Option String) :=
  p.build_clauses.map (fun f =>
    if f.isEmpty then none else some (String.intercalate " and " (f.map Clause.render)))

/-- `GraphQueryPlanner.compose_endpoint` (outlook_helpers.py:83-104).  A truthy
`msg_id` short-circuits to the single-resource path; otherwise the filter,
folder scope and `$top` limit are assembled into a list query. -/
def GraphQueryPlanner.compose_endpoint (p : GraphQueryPlanner) : Except String String :=
  if truthy p.filters.msg_id then
    pure ("/me/messages/" ++ p.filters.msg_id.getD "")
  else do
    let filter_str ← p.build_filter
    let base :=
      match p.get_folder with
      | some folder => "/me/mailFolders/" ++ folder ++ "/messages"
      | none => "/me/messages"
    let query :=
      (match filter_str with
        | some fs => ["$filter=" ++ pyQuote fs]
        | none => []) ++ ["$top=" ++ toString p.max_results]
    pure (base ++ "?" ++ String.intercalate "&" query)

/-! ### The Gmail query builder (gmail_helpers.py:173-182) -/

/-- Conditional query token for a truthy optional string filter
(`if sender: query_parts.append(f"from:{sender}")`). -/
def optToken (o : Option String) (f : String → String) : List String :=
  match o with
  | some s => if s = "" then [] else [f s]
  | none => []

/-- The `query_parts` list built inside `GmailClient.search_emails`
(gmail_helpers.py:173-180), in source order. -/
def gmailQueryTokens (sender subject : Option String) (has_attachment : Bool)
    (after before : Option String) (unread : Bool) (label : Option String) : List String :=
  optToken sender (fun s => "from:" ++ s)
    ++ optToken subject (fun s => "subject:" ++ s)
    ++ (if has_attachment then ["has:attachment"] else [])
    ++ optToken after (fun s => "after:" ++ s)
    ++ optToken before (fun s => "before:" ++ s)
    ++ (if unread then ["is:unread"] else [])
    ++ optToken label (fun s => "label:" ++ s)

/-- `query = " ".join(query_parts)` (gmail_helpers.py:182). -/
def gmailBuildQuery (sender subject : Option String) (has_attachment : Bool)
    (after before : Option String) (unread : Bool) (label : Option String) : String :=
  String.intercalate " " (gmailQueryTokens sender subject has_attachment after before unread label)

/-! ### The Result Envelope -/

/-- `EmailingStatus` enum (`email_client/models.py`). -/
inductive EmailingStatus where
  | SUCCEEDED
  | FAILED
deriving DecidableEq, Repr

/-- The uniform result dict `{operation_status, operation_message, result}` every
operation returns; `result` is absent on failure paths. -/
structure Envelope (α : Type) where
  operation_status : EmailingStatus
  operation_message : String
  result : Option α := none
deriving DecidableEq, Repr

/-- Model of a Python `try: ... except Exception as e: return FAILED envelope`
block: any exception raised by the body is converted into a FAILED envelope
carrying the error text. -/
def tryEnvelope {α : Type} (body : Except String (Envelope α)) : Envelope α :=
  match body with
  | .ok e => e
  | .error msg => { operation_status := .FAILED, operation_message := msg }

/-- Python `d[k]` on an optional field: raises `KeyError` when the key is absent. -/
def keyErr {α : Type} (o : Option α) (k : String) : Except String α :=
  match o with
  | some v => pure v
  | none => throw ("KeyError: \x27" ++ k ++ "\x27")

/-! ### Outlook client (`OutlookClient`, outlook_helpers.py:107-400)

The transport (`_request`, which awaits the Graph API over HTTP and raises
`RuntimeError` on any failure) is modelled as an oracle: a function from method
and endpoint to either an error (a raised exception) or an already-decoded
response value. -/

/-- The `emailAddress` object inside a Graph `from` field. -/
structure OEmailAddress where
  name : Option String := none
  address : Option String := none
deriving DecidableEq, Repr

/-- The `body` object of a Graph message. -/
structure OBody where
  contentType : Option String := none
  content : Option String := none
deriving DecidableEq, Repr

/-- A Graph API message object, with exactly the keys that
`extract_important_fields` and `toggle_label_email` read; `none` models an
absent key. -/
structure OMessage where
  id : Option String := none
  conversationId : Option String := none
  subject : Option String := none
  fromEmailAddress : Option OEmailAddress := none
  hasAttachments : Option Bool := none
  categories : Option (List String) := none
  body : Option OBody := none
  bodyPreview : Option String := none
  receivedDateTime : Option String := none
deriving DecidableEq, Repr

/-- A decoded Graph API response: a single message object, a listing object
(its `value` key, `none` when missing), or an empty body. -/
inductive OResponse where
  | message (m : OMessage)
  | listing (value : Option (List OMessage))
  | empty
deriving DecidableEq, Repr

/-- Oracle for `OutlookClient._request`: `.error` models the `RuntimeError`
raised on transport or provider failure.  `patch` carries the `categories`
payload of `toggle_label_email`. -/
structure OutlookNet where
  request : (method : String) → (endpoint : String) → Except String OResponse
  patch : (endpoint : String) → (categories : List String) → Except String OResponse

/-- Python `str(None)` / `str(x)` rendering of an optional string inside an f-string. -/
def optRepr : Option String → String
  | some s => s
  | none => "None"

/-- The normalized message record produced by `extract_important_fields`
(outlook_helpers.py:273-288). -/
structure ExtractedFields where
  id : Option String
  conversation_id : Option String
  subject : Option String
  sender : String
  body : Option String
  hasAttachments : Bool
  categories : List String
  receivedDateTime : Option String
deriving DecidableEq, Repr

/-- `extract_important_fields(message)` (outlook_helpers.py:273-288): `.get`
calls default missing keys, but `body_object['contentType']` and
`body_object['content']` raise `KeyError` when absent. -/
def extract_important_fields (message : OMessage) : Except String ExtractedFields := do
  let sender := (message.fromEmailAddress.getD {})
  let attachments := message.hasAttachments.getD false
  let categories := message.categories.getD []
  let body_object := message.body.getD {}
  let contentType ← keyErr body_object.contentType "contentType"
  let body ← if contentType = "html" then pure message.bodyPreview
    else do pure (some (← keyErr body_object.content "content"))
  pure { id := message.id
         conversation_id := message.conversationId
         subject := message.subject
         sender := optRepr sender.name ++ " <" ++ optRepr sender.address ++ ">"
         body := body
         hasAttachments := attachments
         categories := categories
         receivedDateTime := message.receivedDateTime }

/-- Payload of an Outlook search envelope: a single extracted message when
`msg_id` was supplied, a list otherwise. -/
inductive OSearchResult where
  | single (m : ExtractedFields)
  | many (ms : List ExtractedFields)
deriving DecidableEq, Repr

/-- `OutlookClient.SEARCH_EMAIL_SUCCESS_MESSAGE` text of the success envelope. -/
def SEARCH_EMAIL_SUCCESS_MESSAGE : String := "Emails have been searched successfully"

/-- The body of the `try` block of `OutlookClient.search_emails`
(outlook_helpers.py:265-300): issue the GET, read either the object itself
(when `msg_id` is truthy) or its `value` list, and extract fields. -/
def outlookSearchBody (net : OutlookNet) (msg_id : Option String) (endpoint : String) :
    Except String (Envelope OSearchResult) := do
  let search_res ← net.request "GET" endpoint
  if truthy msg_id then
    match search_res with
    | .message m => do
      let ef ← extract_important_fields m
      pure { operation_status := .SUCCEEDED, operation_message := SEARCH_EMAIL_SUCCESS_MESSAGE,
             result := some (.single ef) }
    | _ => throw "TypeError: response is not a message object"
  else
    match search_res with
    | .listing (some msgs) => do
      let efs ← msgs.mapM extract_important_fields
      pure { operation_status := .SUCCEEDED, operation_message := SEARCH_EMAIL_SUCCESS_MESSAGE,
             result := some (.many efs) }
    | .listing none => throw "KeyError: \x27value\x27"
    | _ => throw "TypeError: response has no value key"

/-- `OutlookClient.search_emails` (outlook_helpers.py:238-304).  The planner is
constructed and `compose_endpoint()` is called BEFORE the `try` block, so an
exception raised there (a `ValueError` from `to_iso8601`) propagates to the
caller; `.error` models exactly that escaping exception. -/
def OutlookClient.search_emails (net : OutlookNet) (sender subject : Option String)
    (has_attachment : Bool) (after before : Option String) (unread : Bool)
    (label : Option String) (msg_id : Option String) (max_results : Nat) :
    Except String (Envelope OSearchResult) := do
  let planner := GraphQueryPlanner.init label
    { sender := sender, subject := subject, has_attachment := has_attachment,
      after := after, before := before, unread := unread, msg_id := msg_id }
    max_results
  let endpoint ← planner.compose_endpoint
  pure (tryEnvelope (outlookSearchBody net msg_id endpoint))

/-- Payload of a successful Outlook `toggle_label_email`:
`{"id": msg_id, "categories": existing}` (outlook_helpers.py:394). -/
structure OToggleResult where
  id : String
  categories : List String
deriving DecidableEq, Repr

/-- The PATCH `try`/`except` of `OutlookClient.toggle_label_email`
(outlook_helpers.py:387-400): on success the envelope echoes the (possibly
unchanged) category list; any failure becomes a FAILED envelope. -/
def outlookPatchResult (net : OutlookNet) (endpoint msg_id label action : String)
    (existing : List String) : Envelope OToggleResult :=
  match net.patch endpoint existing with
  | .ok _ => { operation_status := .SUCCEEDED,
               operation_message := "Label \x27" ++ label ++ "\x27 " ++ action ++ "ed successfully",
               result := some { id := msg_id, categories := existing } }
  | .error e => { operation_status := .FAILED,
                  operation_message := "Failed to update label: " ++ e }

/-- `OutlookClient.toggle_label_email` (outlook_helpers.py:356-400).  The GET
and the PATCH each sit in their own `try`; the list surgery between them never
raises, so the whole operation always returns an envelope.  Note that when the
label is already present on `add` (or absent on `remove`) the category list is
left unchanged but the PATCH is still issued and the operation still reports
SUCCEEDED. -/
def OutlookClient.toggle_label_email (net : OutlookNet) (msg_id label_name : String)
    (action : String) : Except String (Envelope OToggleResult) := do
  let endpoint := "/me/messages/" ++ msg_id
  let fetched : Except String (List String) := do
    let current ← net.request "GET" endpoint
    match current with
    | .message m => pure (m.categories.getD [])
    | _ => pure []
  match fetched with
  | .error e => pure { operation_status := .FAILED,
                       operation_message := "Failed to fetch message: " ++ e }
  | .ok existing₀ =>
    let label := pyCapitalize (pyStrip label_name)
    let next : Option (List String) :=
      if action = "add" then
        some (if label ∈ existing₀ then existing₀ else existing₀ ++ [label])
      else if action = "remove" then
        some (existing₀.filter (fun c => c ≠ label))
      else none
    match next with
    | none => pure { operation_status := .FAILED,
                     operation_message := "Invalid action: " ++ action }
    | some existing => pure (outlookPatchResult net endpoint msg_id label action existing)

/-! ### Gmail client (`GmailClient`, gmail_helpers.py:16-325)

The Gmail API service is modelled as an oracle with one typed channel per call
the client issues.  Responses arrive already JSON-decoded; the base64 transport
encoding of message bodies is elided (the oracle supplies the decoded text),
since no claim concerns body decoding. -/

/-- One header object of a Gmail message payload. -/
structure GHeader where
  name : String
  value : String
deriving DecidableEq, Repr

/-- One MIME part of a Gmail message payload. -/
structure GPart where
  filename : Option String := none
  mimeType : Option String := none
  bodyData : Option String := none
deriving DecidableEq, Repr

/-- A Gmail message `payload` object. -/
structure GPayload where
  headers : List GHeader := []
  parts : Option (List GPart) := none
  bodyData : Option String := none
deriving DecidableEq, Repr

/-- A Gmail message object as returned by `messages().get`; `none` models an
absent key. -/
structure GMsgData where
  id : Option String := none
  threadId : Option String := none
  payload : Option GPayload := none
  labelIds : Option (List String) := none
  internalDate : Option Int := none
deriving DecidableEq, Repr

/-- A `{name, id}` entry of the `labels().list` response. -/
structure GmailLabel where
  name : String
  id : String
deriving DecidableEq, Repr

/-- A `{id}` stub of the `messages().list` response. -/
structure GMsgRef where
  id : Option String := none
deriving DecidableEq, Repr

/-- Oracle for the Gmail API service calls issued by `GmailClient`; `.error`
models an exception raised by the underlying `execute()`. -/
structure GmailNet where
  listLabels : Except String (List GmailLabel)
  getMessage : (msg_id : String) → Except String GMsgData
  listMessages : (q : String) → (maxResults : Nat) → Except String (List GMsgRef)
  modify : (msg_id : String) → (addLabelIds removeLabelIds : List String) →
    Except String GMsgData

/-- `GmailClient.extract_attachments` (gmail_helpers.py:69-77): filenames of the
parts whose `filename` is truthy. -/
def extract_attachments (payload : GPayload) : List String :=
  match payload.parts with
  | some parts => (parts.filterMap GPart.filename).filter (fun f => f ≠ "")
  | none => []

/-- `GmailClient.extract_body` (gmail_helpers.py:79-91): first `text/plain` part
with data, else the top-level body data, else `""`. -/
def extract_body (payload : GPayload) : String :=
  let fromParts :=
    match payload.parts with
    | some parts =>
      (parts.find? (fun part => part.mimeType = some "text/plain"
        && part.bodyData.getD "" ≠ "")).bind GPart.bodyData
    | none => none
  match fromParts with
  | some data => data
  | none =>
    match payload.bodyData with
    | some data => data
    | none => ""

/-- `GmailClient.convert_to_datetime` (gmail_helpers.py:93-98): `None` when the
timestamp is absent (the bare `except` swallows the `int(None)` failure); the
local-time ISO rendering of `datetime.fromtimestamp` is modelled as an opaque
injective tag, since no claim depends on its text. -/
def convert_to_datetime : Option Int → Option String
  | none => none
  | some ts => some ("fromtimestamp(" ++ toString ts ++ "/1000)")

/-- The normalized message record produced by `GmailClient.parse_msg`
(gmail_helpers.py:100-116). -/
structure ParsedMsg where
  id : String
  threadId : Option String
  subject : String
  sender : String
  body : String
  attachments : List String
  labelIds : List String
  dateTime : Option String
deriving DecidableEq, Repr

/-- `GmailClient.parse_msg(msg_data)` (gmail_helpers.py:100-116); only
`msg_data['id']` can raise (`KeyError`), everything else uses `.get` defaults. -/
def parse_msg (msg_data : GMsgData) : Except String ParsedMsg := do
  let payload := msg_data.payload.getD {}
  let headers := payload.headers
  let subject := ((headers.find? (fun h => pyLower h.name = "subject")).map GHeader.value).getD
    "No Subject"
  let sender := ((headers.find? (fun h => pyLower h.name = "from")).map GHeader.value).getD
    "Unknown Sender"
  let id ← keyErr msg_data.id "id"
  pure { id := id
         threadId := msg_data.threadId
         subject := subject
         sender := sender
         body := extract_body payload
         attachments := extract_attachments payload
         labelIds := msg_data.labelIds.getD []
         dateTime := convert_to_datetime msg_data.internalDate }

/-- Payload of a Gmail search envelope: a single parsed message when `msg_id`
was supplied, a list otherwise. -/
inductive GSearchResult where
  | single (m : ParsedMsg)
  | many (ms : List ParsedMsg)
deriving DecidableEq, Repr

/-- The body of the `try` block of `GmailClient.search_emails`
(gmail_helpers.py:165-198). -/
def gmailSearchBody (net : GmailNet) (sender subject : Option String)
    (has_attachment : Bool) (after before : Option String) (unread : Bool)
    (label : Option String) (msg_id : Option String) (max_results : Nat) :
    Except String (Envelope GSearchResult) := do
  if truthy msg_id then
    let msg_data ← net.getMessage (msg_id.getD "")
    let parsed ← parse_msg msg_data
    pure { operation_status := .SUCCEEDED,
           operation_message := "Email has been searched successfully",
           result := some (.single parsed) }
  else
    let query := gmailBuildQuery sender subject has_attachment after before unread label
    let messages ← net.listMessages query max_results
    let enriched ← messages.mapM (fun msg => do
      let mid ← keyErr msg.id "id"
      let msg_data ← net.getMessage mid
      parse_msg msg_data)
    pure { operation_status := .SUCCEEDED,
           operation_message := "Emails have been searched successfully",
           result := some (.many enriched) }

/-- `GmailClient.search_emails` (gmail_helpers.py:162-202): the whole body sits
inside `try`, so every exception is converted into a FAILED envelope and the
operation always returns (`.ok`). -/
def GmailClient.search_emails (net : GmailNet) (sender subject : Option String)
    (has_attachment : Bool) (after before : Option String) (unread : Bool)
    (label : Option String) (msg_id : Option String) (max_results : Nat) :
    Except String (Envelope GSearchResult) :=
  pure (tryEnvelope
    (gmailSearchBody net sender subject has_attachment after before unread label msg_id
      max_results))

/-- `GmailClient._get_labels` (gmail_helpers.py:118-124): its own `try` returns
`[]` on any failure. -/
def get_labels (net : GmailNet) : List GmailLabel :=
  match net.listLabels with
  | .ok ls => ls
  | .error _ => []

/-- Python dict lookup where the dict was built by a comprehension: on duplicate
keys the LAST binding wins. -/
def dictGet (kvs : List (String × String)) (k : String) : Option String :=
  (kvs.reverse.find? (fun kv => kv.1 = k)).map Prod.snd

/-- Keys of a dict built by a comprehension, in first-insertion order. -/
def dictKeys (kvs : List (String × String)) : List String :=
  (kvs.map Prod.fst).dedup

/-- Lexicographic (code-point) comparison of character lists, Python `str` order. -/
def listLe : List Char → List Char → Bool
  | [], _ => true
  | _ :: _, [] => false
  | c :: cs, d :: ds =>
    if c.toNat < d.toNat then true
    else if d.toNat < c.toNat then false
    else listLe cs ds

/-- Python `<=` on strings. -/
def strLe (a b : String) : Bool := listLe a.data b.data

/-- Insert into a sorted list (stable). -/
def insertSorted (x : String) : List String → List String
  | [] => [x]
  | y :: ys => if strLe x y then x :: y :: ys else y :: insertSorted x ys

/-- Model of Python `sorted` on strings (ascending, lexicographic by code point). -/
def pySorted (l : List String) : List String := l.foldr insertSorted []

/-- The body of the `try` block of `GmailClient.toggle_label_email`
(gmail_helpers.py:273-321): resolve the label id case-insensitively, fetch the
message, and add/remove only when the state actually changes — the no-op cases
report FAILED.  The guard `if not label_id:` (gmail_helpers.py:278) tests
Python truthiness, so a MISSING id and an EMPTY-STRING id both take the
"not found" branch. -/
def gmailToggleBody (net : GmailNet) (msg_id label_name action : String) :
    Except String (Envelope GMsgData) := do
  let labels := get_labels net
  let label_map := labels.map (fun l => (pyLower l.name, l.id))
  let label_idOpt := dictGet label_map (pyLower label_name)
  if !truthy label_idOpt then
    pure { operation_status := .FAILED,
           operation_message := "Label \x27" ++ label_name ++ "\x27 not found. Available labels: "
             ++ String.intercalate "," (pySorted (dictKeys label_map)) }
  else do
    let label_id := label_idOpt.getD ""
    let msg_data ← net.getMessage msg_id
    let current_labels := msg_data.labelIds.getD []
    if action = "add" then
      if label_id ∉ current_labels then do
        let res ← net.modify msg_id [label_id] []
        pure { operation_status := .SUCCEEDED,
               operation_message := "Added label \x27" ++ label_name ++ "\x27 to message " ++ msg_id,
               result := some res }
      else
        pure { operation_status := .FAILED,
               operation_message := "Label \x27" ++ label_name ++ "\x27 already present on message "
                 ++ msg_id }
    else if action = "remove" then
      if label_id ∈ current_labels then do
        let res ← net.modify msg_id [] [label_id]
        pure { operation_status := .SUCCEEDED,
               operation_message := "🗑️ Removed label \x27" ++ label_name ++ "\x27 from message "
                 ++ msg_id,
               result := some res }
      else
        pure { operation_status := .FAILED,
               operation_message := "Label \x27" ++ label_name ++ "\x27 not present on message "
                 ++ msg_id }
    else
      pure { operation_status := .FAILED,
             operation_message := "Unknown action \x27" ++ action ++ "\x27. Use \x27add\x27 or \x27remove\x27." }

/-- `GmailClient.toggle_label_email` (gmail_helpers.py:272-325): the whole body
sits inside `try`, so the operation always returns an envelope. -/
def GmailClient.toggle_label_email (net : GmailNet) (msg_id label_name : String)
    (action : String) : Except String (Envelope GMsgData) :=
  pure (tryEnvelope (gmailToggleBody net msg_id label_name action))

/-! ### A concrete Gmail server state, to run `toggle_label_email` twice

The oracle is pure, so the effect of a successful `modify` on the mailbox is
described by an explicit state-transition function; "calling toggle twice" is
the first call against the state's oracle followed by a second call against the
oracle of the updated state. -/

/-- A Gmail mailbox state: the account's labels and each message's label ids. -/
structure GmailState where
  labels : List GmailLabel
  msgs : List (String × List String)
deriving DecidableEq, Repr

/-- Message lookup in a mailbox state. -/
def GmailState.getMsg (st : GmailState) (mid : String) : Option (List String) :=
  (st.msgs.find? (fun kv => kv.1 = mid)).map Prod.snd

/-- Server semantics of `messages().modify`: apply removals then additions to
the message's label set. -/
def GmailState.applyModify (st : GmailState) (mid : String)
    (addLabelIds removeLabelIds : List String) : GmailState :=
  { st with msgs := st.msgs.map (fun kv =>
      if kv.1 = mid then
        (kv.1, (kv.2.filter (fun l => l ∉ removeLabelIds))
          ++ addLabelIds.filter (fun l => l ∉ kv.2)) else kv) }

/-- The oracle a mailbox state presents to the client: label listing and message
reads succeed from the state, `modify` echoes the updated message. -/
def GmailState.net (st : GmailState) : GmailNet :=
  { listLabels := .ok st.labels
    getMessage := fun mid =>
      match st.getMsg mid with
      | some lids => .ok { id := some mid, labelIds := some lids }
      | none => .error "HttpError 404: message not found"
    listMessages := fun _ _ => .ok []
    modify := fun mid add rem =>
      match (st.applyModify mid add rem).getMsg mid with
      | some lids => .ok { id := some mid, labelIds := some lids }
      | none => .error "HttpError 404: message not found" }

/-! ### The Settings Store (`EmailSettings`, mcp_server/common/models.py:12-29;
`load_email_settings` / `update_email_settings`, api/main.py:109-164)

The persisted JSON document is modelled as an association list of field names
to JSON values; the three failure modes of `load` (missing file, invalid JSON,
schema validation failure) are the three shapes of `Stored`.  Pydantic's lax
coercions (e.g. `"true"` to a boolean) are not modelled: a field validates
exactly when the JSON value has the field's type and, for the `Literal`
fields, one of the allowed literals. -/

/-- The `Literal["en", "ar", "fr"]` type of `language`. -/
inductive SLanguage where
  | en | ar | fr
deriving DecidableEq, Repr

/-- The `Literal[...]` type of `tone`. -/
inductive STone where
  | formal | informal | friendly | polite | technical
deriving DecidableEq, Repr

/-- The `Literal[...]` type of `writing_style`. -/
inductive SWritingStyle where
  | clear_and_concise | detailed | persuasive
deriving DecidableEq, Repr

/-- The `Provider` enum (mcp_server/common/models.py:7-9). -/
inductive SProvider where
  | google | outlook
deriving DecidableEq, Repr

def encLanguage : SLanguage → String
  | .en => "en"
  | .ar => "ar"
  | .fr => "fr"

def encTone : STone → String
  | .formal => "formal"
  | .informal => "informal"
  | .friendly => "friendly"
  | .polite => "polite"
  | .technical => "technical"

def encWritingStyle : SWritingStyle → String
  | .clear_and_concise => "clear_and_concise"
  | .detailed => "detailed"
  | .persuasive => "persuasive"

def encProvider : SProvider → String
  | .google => "google"
  | .outlook => "outlook"

/-- A JSON value of the shapes the settings document uses. -/
inductive SValue where
  | str (s : String)
  | bool (b : Bool)
  | int (n : Int)
deriving DecidableEq, Repr

def decLanguage : SValue → Option SLanguage
  | .str "en" => some .en
  | .str "ar" => some .ar
  | .str "fr" => some .fr
  | _ => none

def decTone : SValue → Option STone
  | .str "formal" => some .formal
  | .str "informal" => some .informal
  | .str "friendly" => some .friendly
  | .str "polite" => some .polite
  | .str "technical" => some .technical
  | _ => none

def decWritingStyle : SValue → Option SWritingStyle
  | .str "clear_and_concise" => some .clear_and_concise
  | .str "detailed" => some .detailed
  | .str "persuasive" => some .persuasive
  | _ => none

def decProvider : SValue → Option SProvider
  | .str "google" => some .google
  | .str "outlook" => some .outlook
  | _ => none

def decStr : SValue → Option String
  | .str s => some s
  | _ => none

def decBool : SValue → Option Bool
  | .bool b => some b
  | _ => none

def decInt : SValue → Option Int
  | .int n => some n
  | _ => none

/-- `EmailSettings` (mcp_server/common/models.py:12-29), defaults included.
Braces of the template placeholders are written `\x7b`/`\x7d`. -/
structure EmailSettings where
  language : SLanguage := .en
  tone : STone := .formal
  writing_style : SWritingStyle := .clear_and_concise
  sender_name : String := "Astro"
  organization_name : String := "Kalima Tech"
  include_signature : Bool := true
  signature : String := "Best regards,\n\x7b\x7bsender_name\x7d\x7d\n\x7b\x7borganization_name\x7d\x7d"
  preferred_greeting : String := "Dear \x7b\x7brecipient_name\x7d\x7d,"
  auto_adjust_tone : Bool := true
  include_thread_context : Bool := true
  character_limit : Int := 1000
  prompt_prefix : String :=
    "You are an AI email assistant for \x7b\x7borganization_name\x7d\x7d. Keep messages professional, polite, and to the point."
  default_provider : SProvider := .google
deriving DecidableEq, Repr

/-- The persisted settings document: field name to JSON value. -/
def SettingsDoc : Type := List (String × SValue)

instance : DecidableEq SettingsDoc := by
  unfold SettingsDoc
  infer_instance

/-- `EmailSettings.model_fields.keys()`, in declaration order. -/
def fieldNames : List String :=
  ["language", "tone", "writing_style", "sender_name", "organization_name",
   "include_signature", "signature", "preferred_greeting", "auto_adjust_tone",
   "include_thread_context", "character_limit", "prompt_prefix", "default_provider"]

/-- `model_dump()`: the document of a settings record, keys in declaration order. -/
def EmailSettings.dump (s : EmailSettings) : SettingsDoc :=
  [("language", .str (encLanguage s.language)),
   ("tone", .str (encTone s.tone)),
   ("writing_style", .str (encWritingStyle s.writing_style)),
   ("sender_name", .str s.sender_name),
   ("organization_name", .str s.organization_name),
   ("include_signature", .bool s.include_signature),
   ("signature", .str s.signature),
   ("preferred_greeting", .str s.preferred_greeting),
   ("auto_adjust_tone", .bool s.auto_adjust_tone),
   ("include_thread_context", .bool s.include_thread_context),
   ("character_limit", .int s.character_limit),
   ("prompt_prefix", .str s.prompt_prefix),
   ("default_provider", .str (encProvider s.default_provider))]

/-- Dict read `d.get(k)` (keys are unique in every document we build). -/
def getKey (d : SettingsDoc) (k : String) : Option SValue :=
  match d with
  | [] => none
  | (k2, v) :: rest => if k2 = k then some v else getKey rest k

/-- Dict write `d[k] = v` for a key already present (the only way `update` uses
it, since the key was checked against `model_fields`): the binding is replaced
in place. -/
def setKey (d : SettingsDoc) (k : String) (v : SValue) : SettingsDoc :=
  List.map (fun kv => if kv.1 = k then (k, v) else kv) d

/-- Validation of one field: an absent key takes the default, a present key
must decode. -/
def decodeField {α : Type} (d : SettingsDoc) (k : String) (dec : SValue → Option α)
    (dflt : α) : Option α :=
  match getKey d k with
  | none => some dflt
  | some v => dec v

/-- `EmailSettings(**data)`: pydantic validation of a document.  Extra keys are
ignored, missing keys take their defaults, `none` models a raised
`ValidationError`. -/
def validateSettings (d : SettingsDoc) : Option EmailSettings := do
  let language ← decodeField d "language" decLanguage .en
  let tone ← decodeField d "tone" decTone .formal
  let writing_style ← decodeField d "writing_style" decWritingStyle .clear_and_concise
  let sender_name ← decodeField d "sender_name" decStr "Astro"
  let organization_name ← decodeField d "organization_name" decStr "Kalima Tech"
  let include_signature ← decodeField d "include_signature" decBool true
  let signature ← decodeField d "signature" decStr
    "Best regards,\n\x7b\x7bsender_name\x7d\x7d\n\x7b\x7borganization_name\x7d\x7d"
  let preferred_greeting ← decodeField d "preferred_greeting" decStr
    "Dear \x7b\x7brecipient_name\x7d\x7d,"
  let auto_adjust_tone ← decodeField d "auto_adjust_tone" decBool true
  let include_thread_context ← decodeField d "include_thread_context" decBool true
  let character_limit ← decodeField d "character_limit" decInt 1000
  let prompt_prefix ← decodeField d "prompt_prefix" decStr
    "You are an AI email assistant for \x7b\x7borganization_name\x7d\x7d. Keep messages professional, polite, and to the point."
  let default_provider ← decodeField d "default_provider" decProvider .google
  pure { language := language, tone := tone, writing_style := writing_style,
         sender_name := sender_name, organization_name := organization_name,
         include_signature := include_signature, signature := signature,
         preferred_greeting := preferred_greeting, auto_adjust_tone := auto_adjust_tone,
         include_thread_context := include_thread_context, character_limit := character_limit,
         prompt_prefix := prompt_prefix, default_provider := default_provider }

/-- The three states the persisted settings file can be in, matching the three
exception classes `load_email_settings` catches: absent (`FileNotFoundError`),
undecodable (`json.JSONDecodeError`), or a decoded JSON document (whose schema
validation may still fail). -/
inductive Stored where
  | missing
  | badJson
  | doc (d : SettingsDoc)
deriving DecidableEq

/-- `load_email_settings` (api/main.py:109-125): on missing file, invalid JSON
or validation failure, the default record is returned; the function is total
(never raises). -/
def load_email_settings : Stored → EmailSettings
  | .missing => {}
  | .badJson => {}
  | .doc d => (validateSettings d).getD {}

/-- The key-screening loop of `update_email_settings` (api/main.py:148-154):
overlay each provided binding onto the merged document, raising `ValueError`
at the first key outside `model_fields`. -/
def overlay (updates : List (String × SValue)) (merged : SettingsDoc) :
    Except String SettingsDoc :=
  match updates with
  | [] => .ok merged
  | (k, v) :: rest =>
    if k ∈ fieldNames then overlay rest (setKey merged k v)
    else .error ("Invalid setting \x27" ++ k ++ "\x27. Valid keys: ["
      ++ String.intercalate ", " (fieldNames.map (fun n => "\x27" ++ n ++ "\x27")) ++ "]")

/-- `update_email_settings` (api/main.py:128-164): load, merge, screen keys,
re-validate, persist.  The returned pair is (response, file state after the
call); the response is either the updated record or the `("error", text)`
two-element indicator produced by the catch-all. -/
def update_email_settings (st : Stored) (updates : List (String × SValue)) :
    Except (String × String) EmailSettings × Stored :=
  let current := load_email_settings st
  let merged := current.dump
  match overlay updates merged with
  | .error e => (.error ("error", e), st)
  | .ok merged₂ =>
    match validateSettings merged₂ with
    | none => (.error ("error", "validation error for EmailSettings"), st)
    | some updated => (.ok updated, .doc updated.dump)

/-! ### Auxiliary definitions used by the theorems -/

/-- Whether a call completed without an exception crossing its boundary. -/
def exceptOk {ε α : Type} : Except ε α → Bool
  | .ok _ => true
  | .error _ => false

/-- A date filter slot that will not make `to_iso8601` raise: either not truthy,
or a well-formed `YYYY/MM/DD` string. -/
def dateOk (o : Option String) : Bool := !truthy o || (to_iso8601 (o.getD "")).isSome

/-- Two strings that differ only in letter case (character-wise case folding). -/
def eqUpToCase (a b : String) : Prop := a.data.map Char.toLower = b.data.map Char.toLower

/-- An Outlook transport oracle whose every request succeeds with an empty body. -/
def outlookNullNet : OutlookNet :=
  { request := fun _ _ => .ok .empty
    patch := fun _ _ => .ok .empty }

/-- An Outlook transport oracle for a mailbox whose one message already carries
the category `Starred`; PATCH requests succeed. -/
def outlookStarredNet : OutlookNet :=
  { request := fun _ _ => .ok (.message { categories := some ["Starred"] })
    patch := fun _ _ => .ok .empty }

/-- A Gmail oracle with no labels and no messages. -/
def emptyGmailNet : GmailNet :=
  { listLabels := .ok []
    getMessage := fun _ => .error "HttpError 404: message not found"
    listMessages := fun _ _ => .ok []
    modify := fun _ _ _ => .error "HttpError 404: message not found" }

/-- A Gmail mailbox with the built-in STARRED label and one inbox message. -/
def starredState : GmailState :=
  { labels := [{ name := "STARRED", id := "STARRED" }]
    msgs := [("m1", ["INBOX"])] }

/-- The mailbox after the add-STARRED modify that the first toggle call issues. -/
def starredState₂ : GmailState := starredState.applyModify "m1" ["STARRED"] []

/-! ## Helper lemmas -/

theorem exBind_ok {ε α β : Type} (a : α) (f : α → Except ε β) :
    (Except.ok a >>= f : Except ε β) = f a := rfl

theorem exBind_error {ε α β : Type} (e : ε) (f : α → Except ε β) :
    (Except.error e >>= f : Except ε β) = .error e := rfl

theorem exceptOk_false_iff {ε α : Type} (x : Except ε α) :
    exceptOk x = false ↔ ∃ e, x = .error e := by
  cases x <;> simp [exceptOk]

theorem exceptOk_dateClause (o : Option String) (f : String → Clause) :
    exceptOk (dateClause o f) = dateOk o := by
  cases o with
  | none => simp [dateClause, dateOk, truthy, exceptOk, pure, Except.pure]
  | some s =>
    by_cases hs : s = ""
    · subst hs
      simp [dateClause, dateOk, truthy, exceptOk, pure, Except.pure]
    · cases hi : to_iso8601 s <;>
        simp [dateClause, hs, hi, dateOk, truthy, exceptOk, pure, Except.pure]

theorem dateClause_ok_shape {o : Option String} {f : String → Clause} {l : List Clause}
    (h : dateClause o f = .ok l) : l = [] ∨ ∃ iso, l = [f iso] := by
  cases o with
  | none =>
    simp [dateClause, pure, Except.pure] at h
    exact Or.inl h
  | some s =>
    by_cases hs : s = ""
    · subst hs
      simp [dateClause, pure, Except.pure] at h
      exact Or.inl h
    · cases hi : to_iso8601 s with
      | none => simp [dateClause, hs, hi] at h
      | some iso =>
        simp [dateClause, hs, hi, pure, Except.pure] at h
        exact Or.inr ⟨iso, h.symm⟩

theorem build_clauses_decomp (p : GraphQueryPlanner) (cs : List Clause)
    (h : p.build_clauses = .ok cs) :
    ∃ ge le, dateClause p.filters.after Clause.receivedGe = .ok ge
      ∧ dateClause p.filters.before Clause.receivedLe = .ok le
      ∧ cs = p.semanticClauses
          ++ optClause p.filters.sender Clause.senderEq
          ++ optClause p.filters.subject Clause.subjectContains
          ++ (if p.filters.has_attachment then [Clause.hasAttachmentsTrue] else [])
          ++ ge ++ le ++ p.lateUnreadClauses ++ p.fallbackClauses := by
  rw [GraphQueryPlanner.build_clauses] at h
  cases h1 : dateClause p.filters.after Clause.receivedGe with
  | error e =>
    rw [h1, exBind_error] at h
    exact absurd h (by simp)
  | ok ge =>
    rw [h1, exBind_ok] at h
    cases h2 : dateClause p.filters.before Clause.receivedLe with
    | error e =>
      rw [h2, exBind_error] at h
      exact absurd h (by simp)
    | ok le =>
      rw [h2, exBind_ok] at h
      refine ⟨ge, le, rfl, rfl, ?_⟩
      simp only [pure, Except.pure, Except.ok.injEq] at h
      rw [← h]

theorem exceptOk_build_clauses (p : GraphQueryPlanner) :
    exceptOk p.build_clauses = (dateOk p.filters.after && dateOk p.filters.before) := by
  rw [GraphQueryPlanner.build_clauses]
  cases h1 : dateClause p.filters.after Clause.receivedGe with
  | error e =>
    have := exceptOk_dateClause p.filters.after Clause.receivedGe
    rw [h1] at this
    rw [exBind_error]
    simp [exceptOk] at this ⊢
    simp [← this]
  | ok ge =>
    have hA := exceptOk_dateClause p.filters.after Clause.receivedGe
    rw [h1] at hA
    simp [exceptOk] at hA
    rw [exBind_ok]
    cases h2 : dateClause p.filters.before Clause.receivedLe with
    | error e =>
      have hB := exceptOk_dateClause p.filters.before Clause.receivedLe
      rw [h2] at hB
      simp [exceptOk] at hB
      rw [exBind_error]
      simp [exceptOk, ← hA, ← hB]
    | ok le =>
      have hB := exceptOk_dateClause p.filters.before Clause.receivedLe
      rw [h2] at hB
      simp [exceptOk] at hB
      rw [exBind_ok]
      simp [exceptOk, pure, Except.pure, hA, hB]

theorem build_filter_ok (p : GraphQueryPlanner) (cs : List Clause)
    (hc : p.build_clauses = .ok cs) :
    p.build_filter = .ok (if cs.isEmpty then none
      else some (String.intercalate " and " (cs.map Clause.render))) := by
  rw [GraphQueryPlanner.build_filter, hc]
  rfl

theorem build_filter_error (p : GraphQueryPlanner) (e : String)
    (hc : p.build_clauses = .error e) : p.build_filter = .error e := by
  rw [GraphQueryPlanner.build_filter, hc]
  rfl

theorem compose_of_msgid (p : GraphQueryPlanner) (h : truthy p.filters.msg_id = true) :
    p.compose_endpoint = .ok ("/me/messages/" ++ p.filters.msg_id.getD "") := by
  simp [GraphQueryPlanner.compose_endpoint, h, pure, Except.pure]

theorem compose_of_clauses (p : GraphQueryPlanner) (cs : List Clause)
    (hm : truthy p.filters.msg_id = false)
    (hc : p.build_clauses = .ok cs) :
    p.compose_endpoint = .ok
      ((match p.get_folder with
        | some folder => "/me/mailFolders/" ++ folder ++ "/messages"
        | none => "/me/messages") ++ "?" ++ String.intercalate "&"
        ((if cs.isEmpty then ([] : List String)
          else ["$filter=" ++ pyQuote (String.intercalate " and " (cs.map Clause.render))])
          ++ ["$top=" ++ toString p.max_results])) := by
  rw [GraphQueryPlanner.compose_endpoint]
  simp only [hm, Bool.false_eq_true, if_false]
  rw [build_filter_ok p cs hc, exBind_ok]
  by_cases he : cs.isEmpty <;> simp [he, pure, Except.pure]

theorem exceptOk_compose (p : GraphQueryPlanner) :
    exceptOk p.compose_endpoint
      = (truthy p.filters.msg_id || (dateOk p.filters.after && dateOk p.filters.before)) := by
  by_cases hm : truthy p.filters.msg_id
  · simp [GraphQueryPlanner.compose_endpoint, hm, exceptOk, pure, Except.pure]
  · have hm' : truthy p.filters.msg_id = false := by simpa using hm
    have hbc := exceptOk_build_clauses p
    rw [GraphQueryPlanner.compose_endpoint]
    simp only [hm', Bool.false_eq_true, if_false, Bool.false_or]
    cases hb : p.build_clauses with
    | error e =>
      rw [build_filter_error p e hb, exBind_error]
      rw [hb] at hbc
      cases ha : dateOk p.filters.after <;> cases hbf : dateOk p.filters.before <;>
        simp_all [exceptOk]
    | ok cs =>
      rw [build_filter_ok p cs hb, exBind_ok]
      rw [hb] at hbc
      simp [exceptOk] at hbc
      simp [exceptOk, pure, Except.pure, hbc.1, hbc.2]

theorem optToken_sublist (o : Option String) (f : String → String) :
    List.Sublist (optToken o f) [f (o.getD "")] := by
  cases o with
  | none => exact List.nil_sublist _
  | some s =>
    by_cases hs : s = "" <;> simp [optToken, hs]

theorem ifToken_sublist (b : Bool) (x : String) :
    List.Sublist (if b then [x] else []) [x] := by
  cases b <;> simp

theorem optToken_mem (o : Option String) (f : String → String) (h : truthy o = true) :
    f (o.getD "") ∈ optToken o f := by
  cases o with
  | none => simp [truthy] at h
  | some s =>
    simp [truthy] at h
    simp [optToken, h]

/-! ## Claims -/

/-- C6: every well-formed `YYYY/MM/DD` date string converts to its midnight-UTC
ISO-8601 form — `"2025/01/01"` becomes `"2025-01-01T00:00:00Z"` — and a
malformed `after` or `before` date string makes the Outlook planner raise
inside `to_iso8601` before any endpoint is composed, so a composed endpoint
never contains an unconverted or malformed date. -/
theorem C6_dates_converted_or_rejected :
    to_iso8601 "2025/01/01" = some "2025-01-01T00:00:00Z"
    ∧ (∀ s y m d, parseYmd s = some (y, m, d) → to_iso8601 s = some (isoOfYmd y m d))
    ∧ (∀ label f mr, truthy f.msg_id = false → truthy f.after = true →
        to_iso8601 (f.after.getD "") = none →
        ∃ e, (GraphQueryPlanner.init label f mr).compose_endpoint = .error e)
    ∧ (∀ label f mr, truthy f.msg_id = false → truthy f.before = true →
        to_iso8601 (f.before.getD "") = none →
        ∃ e, (GraphQueryPlanner.init label f mr).compose_endpoint = .error e) := by
  refine ⟨by decide, ?_, ?_, ?_⟩
  · intro s y m d h
    simp [to_iso8601, h]
  · intro label f mr hm ha hn
    rw [← exceptOk_false_iff]
    rw [exceptOk_compose]
    show (truthy f.msg_id || (dateOk f.after && dateOk f.before)) = false
    simp [hm, dateOk, ha, hn]
  · intro label f mr hm hb hn
    rw [← exceptOk_false_iff]
    rw [exceptOk_compose]
    show (truthy f.msg_id || (dateOk f.after && dateOk f.before)) = false
    simp [hm, dateOk, hb, hn]

/-- Witness for C6 at concrete inputs. -/
theorem C6_dates_converted_or_rejected_witness :
    to_iso8601 "2024/2/29" = some (isoOfYmd 2024 2 29)
    ∧ (∃ e, (GraphQueryPlanner.init none { after := some "2025/02/30" } 10).compose_endpoint
        = .error e)
    ∧ (∃ e, (GraphQueryPlanner.init none { before := some "2025-01-01" } 10).compose_endpoint
        = .error e) :=
  ⟨C6_dates_converted_or_rejected.2.1 "2024/2/29" 2024 2 29 (by decide),
   C6_dates_converted_or_rejected.2.2.1 none { after := some "2025/02/30" } 10
     (by decide) (by decide) (by decide),
   C6_dates_converted_or_rejected.2.2.2 none { before := some "2025-01-01" } 10
     (by decide) (by decide) (by decide)⟩

/-- C7: the Gmail query builder emits `from:`, `subject:`, `has:attachment`,
`after:`, `before:`, `is:unread`, `label:` tokens in that fixed order, each only
when its filter is set; the empty filter set yields the empty query; and
`sender="a@b.com", unread=True` yields exactly `"from:a@b.com is:unread"`. -/
theorem C7_gmail_query_builder :
    gmailBuildQuery none none false none none false none = ""
    ∧ gmailBuildQuery (some "a@b.com") none false none none true none = "from:a@b.com is:unread"
    ∧ (∀ sender subject ha af bf u label,
        List.Sublist (gmailQueryTokens sender subject ha af bf u label)
          ["from:" ++ sender.getD "", "subject:" ++ subject.getD "", "has:attachment",
           "after:" ++ af.getD "", "before:" ++ bf.getD "", "is:unread",
           "label:" ++ label.getD ""]
        ∧ (truthy sender = true →
            ("from:" ++ sender.getD "") ∈ gmailQueryTokens sender subject ha af bf u label)
        ∧ (truthy subject = true →
            ("subject:" ++ subject.getD "") ∈ gmailQueryTokens sender subject ha af bf u label)
        ∧ (ha = true → "has:attachment" ∈ gmailQueryTokens sender subject ha af bf u label)
        ∧ (truthy af = true →
            ("after:" ++ af.getD "") ∈ gmailQueryTokens sender subject ha af bf u label)
        ∧ (truthy bf = true →
            ("before:" ++ bf.getD "") ∈ gmailQueryTokens sender subject ha af bf u label)
        ∧ (u = true → "is:unread" ∈ gmailQueryTokens sender subject ha af bf u label)
        ∧ (truthy label = true →
            ("label:" ++ label.getD "") ∈ gmailQueryTokens sender subject ha af bf u label)) := by
  refine ⟨by decide, by decide, ?_⟩
  intro sender subject ha af bf u label
  refine ⟨?_, ?_, ?_, ?_, ?_, ?_, ?_, ?_⟩
  · simp only [gmailQueryTokens, List.append_assoc]
    exact List.Sublist.append (optToken_sublist sender (fun s => "from:" ++ s))
      (List.Sublist.append (optToken_sublist subject (fun s => "subject:" ++ s))
        (List.Sublist.append (ifToken_sublist ha "has:attachment")
          (List.Sublist.append (optToken_sublist af (fun s => "after:" ++ s))
            (List.Sublist.append (optToken_sublist bf (fun s => "before:" ++ s))
              (List.Sublist.append (ifToken_sublist u "is:unread")
                (optToken_sublist label (fun s => "label:" ++ s)))))))
  · intro h
    have hm := optToken_mem sender (fun s => "from:" ++ s) h
    simp only [gmailQueryTokens, List.mem_append]
    tauto
  · intro h
    have hm := optToken_mem subject (fun s => "subject:" ++ s) h
    simp only [gmailQueryTokens, List.mem_append]
    tauto
  · intro h
    have hm : "has:attachment" ∈ (if ha then ["has:attachment"] else []) := by simp [h]
    simp only [gmailQueryTokens, List.mem_append]
    tauto
  · intro h
    have hm := optToken_mem af (fun s => "after:" ++ s) h
    simp only [gmailQueryTokens, List.mem_append]
    tauto
  · intro h
    have hm := optToken_mem bf (fun s => "before:" ++ s) h
    simp only [gmailQueryTokens, List.mem_append]
    tauto
  · intro h
    have hm : "is:unread" ∈ (if u then ["is:unread"] else []) := by simp [h]
    simp only [gmailQueryTokens, List.mem_append]
    tauto
  · intro h
    have hm := optToken_mem label (fun s => "label:" ++ s) h
    simp only [gmailQueryTokens, List.mem_append]
    tauto

/-- Witness for C7 at concrete inputs. -/
theorem C7_gmail_query_builder_witness :
    ("from:a@b.com" ∈ gmailQueryTokens (some "a@b.com") none false none none true none)
    ∧ ("is:unread" ∈ gmailQueryTokens (some "a@b.com") none false none none true none) := by
  refine ⟨?_, ?_⟩
  · have h := (C7_gmail_query_builder.2.2 (some "a@b.com") none false none none true none).2.1
      (by decide)
    simpa using h
  · exact (C7_gmail_query_builder.2.2 (some "a@b.com") none false none none true
      none).2.2.2.2.2.2.1 rfl

/-- C1 (amended): for every Filter Set whose message-id is set to a NON-EMPTY
string, both planners produce a single-resource lookup regardless of every
other filter: the Outlook `compose_endpoint` returns `/me/messages/{msg_id}`
directly, and the Gmail search path is invariant in all other filter values
(it degrades to the single-message get). -/
theorem C1_msgid_dominance (label : Option String) (f : Filters) (mr : Nat) (mid : String)
    (hm : f.msg_id = some mid) (hne : mid ≠ "") (net : GmailNet)
    (s₁ s₂ sub₁ sub₂ : Option String) (ha₁ ha₂ : Bool) (af₁ af₂ bf₁ bf₂ : Option String)
    (u₁ u₂ : Bool) (l₁ l₂ : Option String) (mr₁ mr₂ : Nat) :
    (GraphQueryPlanner.init label f mr).compose_endpoint = .ok ("/me/messages/" ++ mid)
    ∧ GmailClient.search_emails net s₁ sub₁ ha₁ af₁ bf₁ u₁ l₁ (some mid) mr₁
      = GmailClient.search_emails net s₂ sub₂ ha₂ af₂ bf₂ u₂ l₂ (some mid) mr₂ := by
  have htm : truthy (some mid) = true := by simp [truthy, hne]
  constructor
  · have ht : truthy (GraphQueryPlanner.init label f mr).filters.msg_id = true := by
      show truthy f.msg_id = true
      rw [hm]
      exact htm
    rw [compose_of_msgid _ ht]
    show Except.ok ("/me/messages/" ++ f.msg_id.getD "") = _
    rw [hm]
    rfl
  · simp only [GmailClient.search_emails, gmailSearchBody, htm, if_true]

/-- Counterexample to C1 as stated: a Filter Set whose message-id is SET but
empty is falsy in Python, so neither provider short-circuits — Outlook composes
the ordinary filter query and Gmail runs the list search. -/
theorem C1_counterexample :
    (GraphQueryPlanner.init none { sender := some "x", msg_id := some "" } 10).compose_endpoint
      = .ok "/me/messages?$filter=from/emailAddress/address eq \x27x\x27&$top=10"
    ∧ "/me/messages?$filter=from/emailAddress/address eq \x27x\x27&$top=10" ≠ "/me/messages/"
    ∧ GmailClient.search_emails emptyGmailNet none none false none none false none (some "") 10
      = .ok { operation_status := .SUCCEEDED,
              operation_message := "Emails have been searched successfully",
              result := some (.many []) } :=
  ⟨rfl, by decide, rfl⟩

/-- Witness for C1 (amended) at concrete inputs. -/
theorem C1_msgid_dominance_witness :
    (GraphQueryPlanner.init (some "SENT")
        { sender := some "x", unread := true, msg_id := some "ABC" } 10).compose_endpoint
      = .ok "/me/messages/ABC"
    ∧ GmailClient.search_emails emptyGmailNet (some "a") none true none none true none
        (some "ABC") 1
      = GmailClient.search_emails emptyGmailNet none (some "b") false none none false
        (some "X") (some "ABC") 7 :=
  C1_msgid_dominance (some "SENT") { sender := some "x", unread := true, msg_id := some "ABC" }
    10 "ABC" rfl (by decide) emptyGmailNet
    (some "a") none none (some "b") true false none none none none true false none (some "X") 1 7

/-- Counterexample to C5 as stated: with label INBOX and unread set, the Outlook
filter DOES contain the explicit unread clause `isRead eq false` (emitted by the
semantic-flags branch at outlook_helpers.py:56-57), so it is not suppressed. -/
theorem C5_counterexample :
    (GraphQueryPlanner.init (some "INBOX") { unread := true } 10).build_clauses
      = .ok [Clause.isReadFalse]
    ∧ (GraphQueryPlanner.init (some "INBOX") { unread := true } 10).build_filter
      = .ok (some "isRead eq false") :=
  ⟨rfl, rfl⟩

/-- C5 (amended): the unread flag is never suppressed — whenever `unread` is
set, the conjunctive filter contains the clause `isRead eq false` exactly once,
for every label including INBOX (for INBOX it is emitted by the semantic-flags
branch, for any other label or no label by the explicit-filter branch); when
`unread` is not set, the clause never appears. -/
theorem C5_unread_always_emitted (p : GraphQueryPlanner) (cs : List Clause)
    (hc : p.build_clauses = .ok cs) :
    cs.count Clause.isReadFalse = (if p.filters.unread then 1 else 0) := by
  obtain ⟨ge, le, hge, hle, hcs⟩ := build_clauses_decomp _ _ hc
  have hge0 : ge.count Clause.isReadFalse = 0 := by
    rcases dateClause_ok_shape hge with h | ⟨iso, h⟩ <;> subst h <;> simp
  have hle0 : le.count Clause.isReadFalse = 0 := by
    rcases dateClause_ok_shape hle with h | ⟨iso, h⟩ <;> subst h <;> simp
  have hsend : (optClause p.filters.sender Clause.senderEq).count Clause.isReadFalse = 0 := by
    cases p.filters.sender <;> simp [optClause] <;> split <;> simp
  have hsub : (optClause p.filters.subject Clause.subjectContains).count
      Clause.isReadFalse = 0 := by
    cases p.filters.subject <;> simp [optClause] <;> split <;> simp
  have hatt : ((if p.filters.has_attachment then [Clause.hasAttachmentsTrue]
      else []) : List Clause).count Clause.isReadFalse = 0 := by
    split <;> simp
  have hfb : p.fallbackClauses.count Clause.isReadFalse = 0 := by
    rw [GraphQueryPlanner.fallbackClauses]
    split
    · split <;> simp
    · simp
  have h1 : ((if p.label = some "DRAFT" then [Clause.isDraftTrue]
      else []) : List Clause).count Clause.isReadFalse = 0 := by
    split <;> simp
  have h3 : ((if p.label = some "IMPORTANT" then [Clause.categoryAny "Important"]
      else []) : List Clause).count Clause.isReadFalse = 0 := by
    split <;> simp
  subst hcs
  simp only [GraphQueryPlanner.semanticClauses, GraphQueryPlanner.lateUnreadClauses,
    List.count_append, hge0, hle0, hsend, hsub, hatt, hfb, h1, h3]
  by_cases hu : p.filters.unread <;> by_cases hl : p.label = some "INBOX" <;>
    simp [hu, hl]

/-- Witness for C5 (amended) at concrete inputs. -/
theorem C5_unread_always_emitted_witness :
    List.count Clause.isReadFalse [Clause.isReadFalse] = 1 := by
  have h := C5_unread_always_emitted (GraphQueryPlanner.init (some "INBOX") { unread := true } 10)
    [Clause.isReadFalse] rfl
  simpa using h
theorem strAppend_assoc (a b c : String) : (a ++ b) ++ c = a ++ (b ++ c) := by
  cases a with
  | mk da =>
    cases b with
    | mk db =>
      cases c with
      | mk dc =>
        show String.mk ((da ++ db) ++ dc) = String.mk (da ++ (db ++ dc))
        rw [List.append_assoc]

theorem pyUpper_ne_empty {l : String} (h : l ≠ "") : pyUpper l ≠ "" := by
  intro hc
  apply h
  cases l with
  | mk data =>
    cases data with
    | nil => rfl
    | cons c rest =>
      have hd := congrArg String.data hc
      simp [pyUpper] at hd

theorem mem_optClause {c : Clause} {o : Option String} {g : String → Clause} :
    c ∈ optClause o g ↔ ∃ t, o = some t ∧ t ≠ "" ∧ c = g t := by
  cases o with
  | none => simp [optClause]
  | some a =>
    by_cases ha : a = ""
    · subst ha
      simp [optClause]
    · simp [optClause, ha]

theorem categoryAny_mem_iff (p : GraphQueryPlanner) (cs : List Clause) (s : String)
    (hc : p.build_clauses = .ok cs) :
    (Clause.categoryAny s ∈ cs) ↔
      ((p.label = some "IMPORTANT" ∧ s = "Important")
        ∨ (truthy p.label = true ∧ gmailToOutlook (p.label.getD "") = none
            ∧ s = p.label.getD "")) := by
  obtain ⟨ge, le, hge, hle, hcs⟩ := build_clauses_decomp _ _ hc
  subst hcs
  have hgeM : Clause.categoryAny s ∉ ge := by
    rcases dateClause_ok_shape hge with h | ⟨iso, h⟩ <;> subst h <;> simp
  have hleM : Clause.categoryAny s ∉ le := by
    rcases dateClause_ok_shape hle with h | ⟨iso, h⟩ <;> subst h <;> simp
  cases hlt : gmailToOutlook (p.label.getD "") with
  | none =>
    simp only [List.mem_append, GraphQueryPlanner.semanticClauses,
      GraphQueryPlanner.lateUnreadClauses, GraphQueryPlanner.fallbackClauses, hlt,
      List.mem_ite_nil_right, mem_optClause, List.mem_singleton, hgeM, hleM]
    simp [Clause.categoryAny.injEq]
  | some fol =>
    simp only [List.mem_append, GraphQueryPlanner.semanticClauses,
      GraphQueryPlanner.lateUnreadClauses, GraphQueryPlanner.fallbackClauses, hlt,
      List.mem_ite_nil_right, mem_optClause, List.mem_singleton, hgeM, hleM]
    simp [Clause.categoryAny.injEq]

/-- C2: label routing of the Outlook planner — a label whose upper-cased form
is one of the seven folder-mapping entries other than IMPORTANT scopes the
endpoint to the mapped folder and emits no category clause at all; a label not
in the mapping (STARRED included) targets the generic message collection and
emits a category-membership clause for the (upper-cased) label; IMPORTANT alone
is double-routed: folder scope Inbox AND a category clause for `Important`
(and no other category clause). -/
theorem C2_label_routing (l : String) (f : Filters) (mr : Nat) (cs : List Clause)
    (hl : l ≠ "") (hmsg : truthy f.msg_id = false)
    (hc : (GraphQueryPlanner.init (some l) f mr).build_clauses = .ok cs) :
    gmailToOutlook "STARRED" = none
    ∧ (∀ fol, gmailToOutlook (pyUpper l) = some fol → pyUpper l ≠ "IMPORTANT" →
        ((∃ q, (GraphQueryPlanner.init (some l) f mr).compose_endpoint
            = .ok ("/me/mailFolders/" ++ fol ++ "/messages?" ++ q))
          ∧ ∀ s, Clause.categoryAny s ∉ cs))
    ∧ (gmailToOutlook (pyUpper l) = none →
        ((∃ q, (GraphQueryPlanner.init (some l) f mr).compose_endpoint
            = .ok ("/me/messages?" ++ q))
          ∧ Clause.categoryAny (pyUpper l) ∈ cs))
    ∧ (pyUpper l = "IMPORTANT" →
        ((∃ q, (GraphQueryPlanner.init (some l) f mr).compose_endpoint
            = .ok ("/me/mailFolders/Inbox/messages?" ++ q))
          ∧ Clause.categoryAny "Important" ∈ cs
          ∧ ∀ s, Clause.categoryAny s ∈ cs → s = "Important")) := by
  have hp : (GraphQueryPlanner.init (some l) f mr).label = some (pyUpper l) := by
    simp [GraphQueryPlanner.init, truthy, hl]
  have hm : truthy (GraphQueryPlanner.init (some l) f mr).filters.msg_id = false := hmsg
  have hgf : (GraphQueryPlanner.init (some l) f mr).get_folder = gmailToOutlook (pyUpper l) := by
    rw [GraphQueryPlanner.get_folder, hp]
    simp [truthy, pyUpper_ne_empty hl]
  have hcomp := compose_of_clauses (GraphQueryPlanner.init (some l) f mr) cs hm hc
  have hiff : ∀ s, (Clause.categoryAny s ∈ cs) ↔
      ((pyUpper l = "IMPORTANT" ∧ s = "Important")
        ∨ (gmailToOutlook (pyUpper l) = none ∧ s = pyUpper l)) := by
    intro s
    rw [categoryAny_mem_iff (GraphQueryPlanner.init (some l) f mr) cs s hc, hp]
    simp [truthy, pyUpper_ne_empty hl]
  refine ⟨by decide, ?_, ?_, ?_⟩
  · intro fol hfol himp
    constructor
    · refine ⟨String.intercalate "&"
        ((if cs.isEmpty then ([] : List String)
          else ["$filter=" ++ pyQuote (String.intercalate " and " (cs.map Clause.render))])
          ++ ["$top=" ++ toString mr]), ?_⟩
      rw [hcomp, hgf, hfol]
      rw [strAppend_assoc ("/me/mailFolders/" ++ fol) "/messages" "?"]
      rfl
    · intro s hs
      rcases (hiff s).mp hs with ⟨h1, _⟩ | ⟨h1, _⟩
      · exact himp h1
      · rw [hfol] at h1
        exact Option.noConfusion h1
  · intro hnone
    constructor
    · refine ⟨String.intercalate "&"
        ((if cs.isEmpty then ([] : List String)
          else ["$filter=" ++ pyQuote (String.intercalate " and " (cs.map Clause.render))])
          ++ ["$top=" ++ toString mr]), ?_⟩
      rw [hcomp, hgf, hnone]
      rfl
    · exact (hiff (pyUpper l)).mpr (Or.inr ⟨hnone, rfl⟩)
  · intro himp
    have hfol : gmailToOutlook (pyUpper l) = some "Inbox" := by
      rw [himp]
      decide
    refine ⟨?_, ?_, ?_⟩
    · refine ⟨String.intercalate "&"
        ((if cs.isEmpty then ([] : List String)
          else ["$filter=" ++ pyQuote (String.intercalate " and " (cs.map Clause.render))])
          ++ ["$top=" ++ toString mr]), ?_⟩
      rw [hcomp, hgf, hfol]
      rw [strAppend_assoc ("/me/mailFolders/" ++ "Inbox") "/messages" "?"]
      rfl
    · exact (hiff "Important").mpr (Or.inl ⟨himp, rfl⟩)
    · intro s hs
      rcases (hiff s).mp hs with ⟨_, h2⟩ | ⟨h1, _⟩
      · exact h2
      · rw [hfol] at h1
        exact Option.noConfusion h1

/-- Witness for C2 at concrete inputs (a mapped label, an unmapped label, and
IMPORTANT). -/
theorem C2_label_routing_witness :
    gmailToOutlook "STARRED" = none
    ∧ (∃ q, (GraphQueryPlanner.init (some "Sent") { sender := some "x" } 10).compose_endpoint
        = .ok ("/me/mailFolders/SentItems/messages?" ++ q))
    ∧ Clause.categoryAny "STARRED"
        ∈ [Clause.categoryAny "STARRED"]
    ∧ (∃ q, (GraphQueryPlanner.init (some "important") {} 5).compose_endpoint
        = .ok ("/me/mailFolders/Inbox/messages?" ++ q))
    ∧ Clause.categoryAny "Important" ∈ [Clause.categoryAny "Important"] := by
  have h1 := C2_label_routing "Sent" { sender := some "x" } 10
    [Clause.senderEq "x"] (by decide) rfl rfl
  have h2 := C2_label_routing "starred" {} 10 [Clause.categoryAny "STARRED"]
    (by decide) rfl rfl
  have h3 := C2_label_routing "important" {} 5 [Clause.categoryAny "Important"]
    (by decide) rfl rfl
  refine ⟨h1.1, ?_, ?_, ?_, ?_⟩
  · exact (h1.2.1 "SentItems" (by decide) (by decide)).1
  · have := (h2.2.2.1 (by decide)).2
    simpa using this
  · exact (h3.2.2.2 (by decide)).1
  · have := (h3.2.2.2 (by decide)).2.1
    simpa using this

theorem toNat_ofNat_lt {m : Nat} (h : m < 55296) : (Char.ofNat m).toNat = m := by
  rw [Char.ofNat, dif_pos (Or.inl h)]
  simp [Char.ofNatAux, Char.toNat, UInt32.toNat]

theorem toUpper_toLower (c : Char) : c.toLower.toUpper = c.toUpper := by
  have hup : ∀ d : Char, d.toUpper
      = if d.toNat ≥ 97 ∧ d.toNat ≤ 122 then Char.ofNat (d.toNat - 32) else d := fun d => rfl
  have hlo : c.toLower
      = if c.toNat ≥ 65 ∧ c.toNat ≤ 90 then Char.ofNat (c.toNat + 32) else c := rfl
  by_cases h : c.toNat ≥ 65 ∧ c.toNat ≤ 90
  · rw [hlo, if_pos h, hup, hup]
    have h1 : (Char.ofNat (c.toNat + 32)).toNat = c.toNat + 32 := toNat_ofNat_lt (by omega)
    rw [h1, if_pos (by omega), if_neg (by omega)]
    have h2 : c.toNat + 32 - 32 = c.toNat := by omega
    rw [h2, Char.ofNat_toNat]
  · rw [hlo, if_neg h]

theorem toUpper_eq_of_toLower_eq {c d : Char} (h : c.toLower = d.toLower) :
    c.toUpper = d.toUpper := by
  rw [← toUpper_toLower c, h, toUpper_toLower d]

theorem pyUpper_eq_of_eqUpToCase {a b : String} (h : eqUpToCase a b) :
    pyUpper a = pyUpper b := by
  rw [pyUpper, pyUpper]
  cases a with
  | mk da =>
    cases b with
    | mk db =>
      rw [eqUpToCase] at h
      refine congrArg String.mk ?_
      show List.map Char.toUpper da = List.map Char.toUpper db
      induction da generalizing db with
      | nil =>
        cases db with
        | nil => rfl
        | cons y ys => simp at h
      | cons x xs ih =>
        cases db with
        | nil => simp at h
        | cons y ys =>
          simp at h ⊢
          exact ⟨toUpper_eq_of_toLower_eq h.1, ih ys h.2⟩

theorem eqUpToCase_empty_iff {a b : String} (h : eqUpToCase a b) : a = "" ↔ b = "" := by
  cases a with
  | mk da =>
    cases b with
    | mk db =>
      rw [eqUpToCase] at h
      cases da with
      | nil =>
        cases db with
        | nil => simp
        | cons y ys => simp at h
      | cons x xs =>
        cases db with
        | nil => simp at h
        | cons y ys =>
          constructor <;> intro hx <;> exact absurd (congrArg String.data hx) (by simp)

/-- Counterexample to C10 as stated: the Gmail query builder embeds the label
verbatim, so two labels differing only in case produce different query
descriptors (query strings) on the Gmail side. -/
theorem C10_counterexample :
    gmailBuildQuery none none false none none false (some "inbox")
      ≠ gmailBuildQuery none none false none none false (some "INBOX") := by
  decide

/-- C10 (amended): the Outlook planner is case-insensitive in the label — two
labels differing only in letter case yield identical planner states, hence
identical filters and endpoints (the label is upper-cased at construction) —
while the Gmail builder embeds the label string verbatim into its `label:`
token, deferring case handling to the provider. -/
theorem C10_label_case (l₁ l₂ : String) (f : Filters) (mr : Nat)
    (hcase : eqUpToCase l₁ l₂)
    (sender subject : Option String) (ha : Bool) (af bf : Option String) (u : Bool) :
    GraphQueryPlanner.init (some l₁) f mr = GraphQueryPlanner.init (some l₂) f mr
    ∧ (GraphQueryPlanner.init (some l₁) f mr).compose_endpoint
      = (GraphQueryPlanner.init (some l₂) f mr).compose_endpoint
    ∧ (l₁ ≠ "" →
        ("label:" ++ l₁) ∈ gmailQueryTokens sender subject ha af bf u (some l₁)) := by
  have heq : GraphQueryPlanner.init (some l₁) f mr = GraphQueryPlanner.init (some l₂) f mr := by
    rw [GraphQueryPlanner.init, GraphQueryPlanner.init]
    by_cases h1 : l₁ = ""
    · have h2 : l₂ = "" := (eqUpToCase_empty_iff hcase).mp h1
      simp [truthy, h1, h2]
    · have h2 : l₂ ≠ "" := fun hx => h1 ((eqUpToCase_empty_iff hcase).mpr hx)
      simp only [truthy]
      simp [h1, h2, pyUpper_eq_of_eqUpToCase hcase]
  refine ⟨heq, by rw [heq], ?_⟩
  intro h1
  have hm := optToken_mem (some l₁) (fun s => "label:" ++ s) (by simp [truthy, h1])
  simp only [gmailQueryTokens, List.mem_append]
  simp only [Option.getD] at hm
  tauto

/-- Witness for C10 (amended) at concrete inputs. -/
theorem C10_label_case_witness :
    (GraphQueryPlanner.init (some "Inbox") { unread := true } 10).compose_endpoint
      = (GraphQueryPlanner.init (some "INBOX") { unread := true } 10).compose_endpoint
    ∧ ("label:Inbox") ∈ gmailQueryTokens none none false none none false (some "Inbox") := by
  have h := C10_label_case "Inbox" "INBOX" { unread := true } 10
    (by unfold eqUpToCase; decide) none none false none none false
  exact ⟨h.2.1, h.2.2 (by decide)⟩

theorem init_filters (label : Option String) (f : Filters) (mr : Nat) :
    (GraphQueryPlanner.init label f mr).filters = f := rfl

/-- Counterexample to C3 as stated: Outlook `search_emails` builds the planner
and calls `compose_endpoint()` BEFORE its `try` block (outlook_helpers.py:250-263),
so a Filter Set carrying a malformed `after` date string makes the `ValueError`
from `to_iso8601` cross the Provider Client boundary instead of being converted
into a FAILED envelope. -/
theorem C3_counterexample :
    OutlookClient.search_emails outlookNullNet none none false (some "not-a-date") none
        false none none 10
      = .error "time data \x27not-a-date\x27 does not match format \x27%Y/%m/%d\x27" := rfl

/-- C3 (amended): every operation body is wrapped in a catch-all that converts
exceptions into FAILED envelopes, and both toggle operations and the Gmail
search always return an envelope for every oracle behavior and input (malformed
dates included, since Gmail embeds them verbatim); the one exception is Outlook
`search_emails`, whose query planning runs before the `try`, so it returns an
envelope exactly when the message-id is truthy or both date filters are absent
or well-formed, and raises otherwise. -/
theorem C3_failure_policy :
    (∀ (net : OutlookNet) (sender subject : Option String) (ha : Bool)
        (af bf : Option String) (u : Bool) (label mid : Option String) (mr : Nat),
      exceptOk (OutlookClient.search_emails net sender subject ha af bf u label mid mr)
        = (truthy mid || (dateOk af && dateOk bf)))
    ∧ (∀ (net : GmailNet) (sender subject : Option String) (ha : Bool)
        (af bf : Option String) (u : Bool) (label mid : Option String) (mr : Nat),
      exceptOk (GmailClient.search_emails net sender subject ha af bf u label mid mr) = true)
    ∧ (∀ (net : OutlookNet) (mid ln act : String),
      exceptOk (OutlookClient.toggle_label_email net mid ln act) = true)
    ∧ (∀ (net : GmailNet) (mid ln act : String),
      exceptOk (GmailClient.toggle_label_email net mid ln act) = true) := by
  refine ⟨?_, ?_, ?_, ?_⟩
  · intro net sender subject ha af bf u label mid mr
    rw [OutlookClient.search_emails]
    have hcE := exceptOk_compose (GraphQueryPlanner.init label
      { sender := sender, subject := subject, has_attachment := ha,
        after := af, before := bf, unread := u, msg_id := mid } mr)
    simp only [init_filters] at hcE
    cases hcp : (GraphQueryPlanner.init label
        { sender := sender, subject := subject, has_attachment := ha,
          after := af, before := bf, unread := u, msg_id := mid } mr).compose_endpoint with
    | error e =>
      rw [hcp] at hcE
      rw [exBind_error]
      simp only [exceptOk] at hcE ⊢
      exact hcE
    | ok endpoint =>
      rw [hcp] at hcE
      rw [exBind_ok]
      simp only [exceptOk, pure, Except.pure] at hcE ⊢
      exact hcE
  · intro net sender subject ha af bf u label mid mr
    rfl
  · intro net mid ln act
    rw [OutlookClient.toggle_label_email]
    repeat' split
    all_goals rfl
  · intro net mid ln act
    rfl

/-- Counterexample to C4 as stated: on Outlook, `toggle_label_email` with
action `add` and a label already present on the message leaves the category
list unchanged, still issues the PATCH, and reports SUCCEEDED — not the FAILED
no-op the claim requires of both providers (second `add` of `starred` also
yields SUCCEEDED, not FAILED). -/
theorem C4_counterexample :
    OutlookClient.toggle_label_email outlookStarredNet "m1" "starred" "add"
      = .ok { operation_status := .SUCCEEDED,
              operation_message := "Label \x27Starred\x27 added successfully",
              result := some { id := "m1", categories := ["Starred"] } } := rfl

/-- C4 (amended): on GMAIL the spec behavior holds — `add` with the label
already present (resolved to a truthy, i.e. non-empty, label id) returns a
FAILED reported no-op, `remove` with the label absent returns FAILED, a label
that does not resolve to a truthy id (unknown name, or an id that is the empty
string) returns FAILED carrying the full sorted list of valid label names for
either action, and toggling `starred` on twice returns SUCCEEDED then FAILED;
on OUTLOOK however the no-op `add` PATCHes the unchanged category list and
reports SUCCEEDED. -/
theorem C4_toggle_semantics :
    (∀ (net : GmailNet) (mid ln lid : String) (md : GMsgData),
      dictGet ((get_labels net).map (fun l => (pyLower l.name, l.id))) (pyLower ln)
          = some lid →
      lid ≠ "" →
      net.getMessage mid = .ok md →
      lid ∈ md.labelIds.getD [] →
      GmailClient.toggle_label_email net mid ln "add"
        = .ok { operation_status := .FAILED,
                operation_message := "Label \x27" ++ ln ++ "\x27 already present on message "
                  ++ mid })
    ∧ (∀ (net : GmailNet) (mid ln lid : String) (md : GMsgData),
      dictGet ((get_labels net).map (fun l => (pyLower l.name, l.id))) (pyLower ln)
          = some lid →
      lid ≠ "" →
      net.getMessage mid = .ok md →
      lid ∉ md.labelIds.getD [] →
      GmailClient.toggle_label_email net mid ln "remove"
        = .ok { operation_status := .FAILED,
                operation_message := "Label \x27" ++ ln ++ "\x27 not present on message "
                  ++ mid })
    ∧ (∀ (net : GmailNet) (mid ln : String) (act : String),
      truthy (dictGet ((get_labels net).map (fun l => (pyLower l.name, l.id))) (pyLower ln))
          = false →
      GmailClient.toggle_label_email net mid ln act
        = .ok { operation_status := .FAILED,
                operation_message := "Label \x27" ++ ln ++ "\x27 not found. Available labels: "
                  ++ String.intercalate ","
                    (pySorted (dictKeys ((get_labels net).map (fun l => (pyLower l.name, l.id))))) })
    ∧ (GmailClient.toggle_label_email starredState.net "m1" "starred" "add"
        = .ok { operation_status := .SUCCEEDED,
                operation_message := "Added label \x27starred\x27 to message m1",
                result := some { id := some "m1", labelIds := some ["INBOX", "STARRED"] } }
      ∧ GmailClient.toggle_label_email starredState₂.net "m1" "starred" "add"
        = .ok { operation_status := .FAILED,
                operation_message := "Label \x27starred\x27 already present on message m1" })
    ∧ (∀ (net : OutlookNet) (mid ln : String) (m : OMessage) (r : OResponse),
      net.request "GET" ("/me/messages/" ++ mid) = .ok (.message m) →
      pyCapitalize (pyStrip ln) ∈ m.categories.getD [] →
      net.patch ("/me/messages/" ++ mid) (m.categories.getD []) = .ok r →
      OutlookClient.toggle_label_email net mid ln "add"
        = .ok { operation_status := .SUCCEEDED,
                operation_message := "Label \x27" ++ pyCapitalize (pyStrip ln)
                  ++ "\x27 " ++ "add" ++ "ed successfully",
                result := some { id := mid, categories := m.categories.getD [] } }) := by
  refine ⟨?_, ?_, ?_, ⟨rfl, rfl⟩, ?_⟩
  · intro net mid ln lid md hmap hne hget hmem
    have ht : truthy (some lid) = true := by simp [truthy, hne]
    simp only [GmailClient.toggle_label_email, gmailToggleBody, hmap, ht, Bool.not_true,
      Bool.false_eq_true, if_false, Option.getD_some]
    rw [hget, exBind_ok]
    simp [hmem, tryEnvelope, pure, Except.pure]
  · intro net mid ln lid md hmap hne hget hmem
    have ht : truthy (some lid) = true := by simp [truthy, hne]
    simp only [GmailClient.toggle_label_email, gmailToggleBody, hmap, ht, Bool.not_true,
      Bool.false_eq_true, if_false, Option.getD_some]
    rw [hget, exBind_ok]
    simp [hmem, tryEnvelope, pure, Except.pure]
  · intro net mid ln act hmap
    simp only [GmailClient.toggle_label_email, gmailToggleBody, hmap, Bool.not_false, if_true]
    simp [tryEnvelope, pure, Except.pure]
  · intro net mid ln m r hget hmem hpatch
    simp only [OutlookClient.toggle_label_email]
    rw [hget, exBind_ok]
    simp only [hmem, if_pos]
    simp [outlookPatchResult, hpatch, pure, Except.pure, hmem]

/-- Witness for C4 (amended) at concrete inputs. -/
theorem C4_toggle_semantics_witness :
    GmailClient.toggle_label_email starredState₂.net "m1" "starred" "add"
      = .ok { operation_status := .FAILED,
              operation_message := "Label \x27starred\x27 already present on message m1" }
    ∧ GmailClient.toggle_label_email starredState.net "m1" "starred" "remove"
      = .ok { operation_status := .FAILED,
              operation_message := "Label \x27starred\x27 not present on message m1" }
    ∧ GmailClient.toggle_label_email starredState.net "m1" "Fun" "add"
      = .ok { operation_status := .FAILED,
              operation_message := "Label \x27Fun\x27 not found. Available labels: starred" }
    ∧ OutlookClient.toggle_label_email outlookStarredNet "m1" "starred" "add"
      = .ok { operation_status := .SUCCEEDED,
              operation_message := "Label \x27Starred\x27 added successfully",
              result := some { id := "m1", categories := ["Starred"] } } := by
  refine ⟨?_, ?_, ?_, ?_⟩
  · exact C4_toggle_semantics.1 starredState₂.net "m1" "starred" "STARRED"
      { id := some "m1", labelIds := some ["INBOX", "STARRED"] } rfl (by decide) rfl (by decide)
  · exact C4_toggle_semantics.2.1 starredState.net "m1" "starred" "STARRED"
      { id := some "m1", labelIds := some ["INBOX"] } rfl (by decide) rfl (by decide)
  · exact C4_toggle_semantics.2.2.1 starredState.net "m1" "Fun" "add" rfl
  · exact C4_toggle_semantics.2.2.2.2 outlookStarredNet "m1" "starred"
      { categories := some ["Starred"] } OResponse.empty rfl (by decide) rfl

theorem validate_setTone (s : EmailSettings) :
    validateSettings (setKey s.dump "tone" (SValue.str "friendly"))
      = some { s with tone := .friendly } := by
  cases s with
  | mk language tone writing_style sender_name organization_name include_signature
      signature preferred_greeting auto_adjust_tone include_thread_context
      character_limit prompt_prefix default_provider =>
    cases language <;> cases writing_style <;> cases default_provider <;> rfl

theorem overlay_error (up : List (String × SValue))
    (h : ∃ kv ∈ up, kv.1 ∉ fieldNames) :
    ∀ merged, ∃ e, overlay up merged = .error e := by
  induction up with
  | nil =>
    rcases h with ⟨kv, hmem, _⟩
    simp at hmem
  | cons kv rest ih =>
    obtain ⟨k, v⟩ := kv
    intro merged
    by_cases hk : k ∈ fieldNames
    · rcases h with ⟨kv2, hmem, hnot⟩
      rcases List.mem_cons.mp hmem with heq | hmem2
      · subst heq
        exact absurd hk hnot
      · obtain ⟨e, he⟩ := ih ⟨kv2, hmem2, hnot⟩ (setKey merged k v)
        refine ⟨e, ?_⟩
        rw [overlay, if_pos hk]
        exact he
    · refine ⟨"Invalid setting \x27" ++ k ++ "\x27. Valid keys: ["
        ++ String.intercalate ", " (fieldNames.map (fun n => "\x27" ++ n ++ "\x27")) ++ "]", ?_⟩
      rw [overlay, if_neg hk]

/-- C9: `load_email_settings` returns the default EmailSettings record on a
missing settings file, on invalid JSON, and on schema-validation failure; it is
a total function, so no exception reaches the caller. -/
theorem C9_load_returns_defaults :
    load_email_settings .missing = ({} : EmailSettings)
    ∧ load_email_settings .badJson = ({} : EmailSettings)
    ∧ (∀ d, validateSettings d = none →
        load_email_settings (.doc d) = ({} : EmailSettings)) := by
  refine ⟨rfl, rfl, ?_⟩
  intro d h
  simp [load_email_settings, h]

/-- Witness for C9 at a concrete invalid document. -/
theorem C9_load_returns_defaults_witness :
    load_email_settings (.doc [("tone", SValue.int 3)]) = ({} : EmailSettings) :=
  C9_load_returns_defaults.2.2 [("tone", SValue.int 3)] rfl

/-- C8: `update_email_settings` overlays only the keys present in the partial
input (updating only `tone` changes `tone` and preserves every other field of
the loaded record), returns the `("error", msg)` pair without touching the
stored file for any input containing a key outside the schema, and on success
persists exactly the dump of the returned validated record. -/
theorem C8_update_overlays_and_rejects :
    (∀ st, update_email_settings st [("tone", SValue.str "friendly")]
        = (.ok { load_email_settings st with tone := .friendly },
           .doc (EmailSettings.dump { load_email_settings st with tone := .friendly })))
    ∧ (∀ st up, (∃ kv ∈ up, kv.1 ∉ fieldNames) →
        (update_email_settings st up).2 = st
          ∧ ∃ e, (update_email_settings st up).1 = .error ("error", e))
    ∧ (∀ st up s, (update_email_settings st up).1 = .ok s →
        (update_email_settings st up).2 = .doc s.dump) := by
  refine ⟨?_, ?_, ?_⟩
  · intro st
    rw [update_email_settings]
    have hov : overlay [("tone", SValue.str "friendly")] (load_email_settings st).dump
        = .ok (setKey (load_email_settings st).dump "tone" (SValue.str "friendly")) := by
      rw [overlay, if_pos (by decide)]
      rfl
    rw [hov]
    dsimp only
    rw [validate_setTone (load_email_settings st)]
  · intro st up h
    rw [update_email_settings]
    obtain ⟨e, he⟩ := overlay_error up h ((load_email_settings st).dump)
    rw [he]
    exact ⟨rfl, e, rfl⟩
  · intro st up s
    rw [update_email_settings]
    cases ho : overlay up (load_email_settings st).dump with
    | error e =>
      intro hok
      simp at hok
    | ok merged₂ =>
      dsimp only
      cases hv : validateSettings merged₂ with
      | none =>
        intro hok
        simp at hok
      | some updated =>
        intro hok
        simp only [Except.ok.injEq] at hok
        rw [← hok]

/-- Witness for C8 at concrete inputs. -/
theorem C8_update_overlays_and_rejects_witness :
    update_email_settings .missing [("tone", SValue.str "friendly")]
      = (.ok { tone := .friendly },
         .doc (EmailSettings.dump { tone := STone.friendly }))
    ∧ (update_email_settings .missing [("bogus", SValue.int 1)]).2 = .missing
    ∧ (∃ e, (update_email_settings .missing [("bogus", SValue.int 1)]).1
        = .error ("error", e)) := by
  have h1 := C8_update_overlays_and_rejects.1 .missing
  have h2 := C8_update_overlays_and_rejects.2.1 .missing [("bogus", SValue.int 1)]
    ⟨("bogus", SValue.int 1), by simp, by decide⟩
  exact ⟨h1, h2.1, h2.2⟩

end MailNet
